import Mathlib

/-!
Verification of the course-scheduler backend's domain logic.

The definitions below are shallow embeddings of the Python source:
  * `backend/core/models/schedule.py` (`Schedule`, `TimeSlot`, conflict
    detection, credit computation, time-slot derivation),
  * `backend/core/models/course.py` (`Course`, `Meeting`, derived
    properties),
  * `backend/core/schemas/course_schema.py` (`CourseResponse.from_db`),
  * `backend/services/course_service.py` (`_term_to_semester`,
    `sync_courses_from_sis`).

Modelling conventions:
  * Python `int` is `Int`, Python `float` arithmetic is modelled exactly
    over `ℚ` (every value reached in the statements below is exact),
    Python `str` is `String`, `None`-able fields are `Option`.
  * Python exceptions (`ValueError` from `int(...)`, exceptions inside
    `sync_courses_from_sis`) are modelled with `Except`; a mutating
    method that can raise returns the state as mutated up to the point
    of the raise together with an `Except` outcome.
  * Wall-clock fields (`created_at` / `updated_at`) and I/O are outside
    the embedding; the effectful steps of `sync_courses_from_sis`
    (SIS fetch, per-record parse, bulk save) are abstracted as `Except`
    valued inputs.
  * `datetime.strptime` is modelled for the two formats the code uses
    (`"%H:%M"` and `"%I:%M %p"`): one-or-two-digit fields, range checks
    (hour 0–23 / 1–12, minute 0–59), full-string match, the format
    space matching one or more (ASCII) whitespace characters, and the
    meridiem matched case-insensitively.
  * Python `int(s)` is modelled as: strip ASCII whitespace, optional
    single sign, then a nonempty run of ASCII digits (PEP-515 underscore
    grouping and non-ASCII digits are not modelled; no string in the
    repository's data uses them).  `str.isdigit` is modelled as nonempty
    and all ASCII digits.
-/

/-- `Meeting` value object from `backend/core/models/course.py`:
`days` is a string of weekday letters such as "MWF". -/
structure Meeting where
  days : String
  start_time : String
  end_time : String
  location : String
deriving DecidableEq, Repr

/-- `Course` entity from `backend/core/models/course.py`, restricted to the
fields read by the operations verified here (the remaining fields are
carried data that none of the embedded operations inspect). -/
structure Course where
  subject : Option String
  catalog_nbr : Option String
  title : Option String
  description : Option String
  class_nbr : Option Int
  units : Option String
  enrollment_total : Int
  class_capacity : Int
  meetings : List Meeting
  instructor : String
deriving DecidableEq, Repr

/-- `Schedule` entity from `backend/core/models/schedule.py`, restricted to
the fields its own methods read or write (timestamps are wall-clock and
are not modelled). -/
structure Schedule where
  courses : List Course
  total_credits : Int
  is_valid : Bool
  validation_errors : List String
deriving DecidableEq, Repr

/-- A `Schedule` as `__post_init__` leaves a freshly constructed one. -/
def emptySchedule : Schedule :=
  { courses := [], total_credits := 0, is_valid := true, validation_errors := [] }

/-- ASCII whitespace, as matched by the `\s` class of the regexes that
`datetime.strptime` builds and stripped by `int(...)`. -/
def isPyWhitespace (c : Char) : Bool :=
  c = ' ' || c = '\t' || c = '\n' || c = '\r' || c = '\x0b' || c = '\x0c'

/-- Numeric value of an ASCII digit. -/
def digitVal (c : Char) : Nat := c.toNat - '0'.toNat

/-- Greedy match of `\d{1,2}` at the head of the character list: consume
two digits if available, else one, else fail. Returns the value and the
rest of the input. -/
def takeOneOrTwoDigits : List Char → Option (Nat × List Char)
  | [] => none
  | a :: rest =>
    if a.isDigit then
      match rest with
      | b :: rest2 =>
        if b.isDigit then some (digitVal a * 10 + digitVal b, rest2)
        else some (digitVal a, b :: rest2)
      | [] => some (digitVal a, [])
    else none

/-- Consume one or more ASCII whitespace characters (the `\s+` that a
space in a `strptime` format compiles to). -/
def takeWhitespace1 : List Char → Option (List Char)
  | [] => none
  | c :: rest =>
    if isPyWhitespace c then some (rest.dropWhile isPyWhitespace) else none

/-- `datetime.strptime(s, "%H:%M")`, returning minutes since midnight:
hour `\d{1,2}` in 0–23, `:`, minute `\d{1,2}` in 0–59, end of string. -/
def parse24 (s : String) : Option Nat :=
  match takeOneOrTwoDigits s.toList with
  | none => none
  | some (h, rest) =>
    match rest with
    | ':' :: rest2 =>
      match takeOneOrTwoDigits rest2 with
      | none => none
      | some (m, rest3) =>
        if rest3 = [] ∧ h ≤ 23 ∧ m ≤ 59 then some (h * 60 + m) else none
    | _ => none

/-- Case-insensitive match of the meridiem token `AM`/`PM` followed by end
of input; returns `true` for PM. -/
def parseMeridiem : List Char → Option Bool
  | [a, m] =>
    if (a = 'A' ∨ a = 'a') ∧ (m = 'M' ∨ m = 'm') then some false
    else if (a = 'P' ∨ a = 'p') ∧ (m = 'M' ∨ m = 'm') then some true
    else none
  | _ => none

/-- `datetime.strptime(s, "%I:%M %p")`, returning minutes since midnight:
hour `\d{1,2}` in 1–12, `:`, minute `\d{1,2}` in 0–59, whitespace, then
`AM`/`PM` (case-insensitive), end of string; 12 AM is hour 0, 12 PM is
hour 12, other PM hours gain 12. -/
def parse12 (s : String) : Option Nat :=
  match takeOneOrTwoDigits s.toList with
  | none => none
  | some (h, rest) =>
    match rest with
    | ':' :: rest2 =>
      match takeOneOrTwoDigits rest2 with
      | none => none
      | some (m, rest3) =>
        match takeWhitespace1 rest3 with
        | none => none
        | some rest4 =>
          match parseMeridiem rest4 with
          | none => none
          | some pm =>
            if 1 ≤ h ∧ h ≤ 12 ∧ m ≤ 59 then
              let h24 := if pm then (if h = 12 then 12 else h + 12)
                         else (if h = 12 then 0 else h)
              some (h24 * 60 + m)
            else none
    | _ => none

/-- Whether `pat` occurs as a contiguous substring of `l` (Python's
`pat in s` on strings). -/
def listHasInfix (pat : List Char) : List Char → Bool
  | [] => pat.isEmpty
  | c :: rest => pat.isPrefixOf (c :: rest) || listHasInfix pat rest

/-- Python `sub in s` for strings. -/
def strContains (s sub : String) : Bool := listHasInfix sub.toList s.toList

/-- `Schedule._time_to_minutes` (schedule.py lines 102–113): if the string
contains `"AM"` or `"PM"` parse with `"%I:%M %p"`, else with `"%H:%M"`;
any parse failure is swallowed and yields 0. -/
def timeToMinutes (time_str : String) : Nat :=
  let parsed :=
    if strContains time_str "AM" || strContains time_str "PM" then
      parse12 time_str
    else
      parse24 time_str
  match parsed with
  | some n => n
  | none => 0

/-- `Schedule._meetings_overlap` (schedule.py lines 84–100): the two
meetings' weekday-letter sets must intersect, and then the minute
intervals must satisfy `not (end1 <= start2 or end2 <= start1)`. -/
def meetingsOverlap (meeting1 meeting2 : Meeting) : Bool :=
  if meeting1.days.toList.any (fun c => meeting2.days.toList.contains c) then
    let start1 := timeToMinutes meeting1.start_time
    let end1 := timeToMinutes meeting1.end_time
    let start2 := timeToMinutes meeting2.start_time
    let end2 := timeToMinutes meeting2.end_time
    !(decide (end1 ≤ start2) || decide (end2 ≤ start1))
  else
    false

/-- `Schedule._courses_conflict` (schedule.py lines 76–82): some meeting of
`course1` overlaps some meeting of `course2`. -/
def coursesConflict (course1 course2 : Course) : Bool :=
  course1.meetings.any fun meeting1 =>
    course2.meetings.any fun meeting2 => meetingsOverlap meeting1 meeting2

/-- `Schedule._has_time_conflict` (schedule.py lines 69–74): the candidate
course conflicts with some already-scheduled course. -/
def hasTimeConflict (s : Schedule) (new_course : Course) : Bool :=
  s.courses.any fun existing_course => coursesConflict existing_course new_course

-- Characterisation of the meeting-overlap test, shared by several claims.

theorem meetingsOverlap_iff (m1 m2 : Meeting) :
    meetingsOverlap m1 m2 = true ↔
      ((∃ c, c ∈ m1.days.toList ∧ c ∈ m2.days.toList) ∧
        ¬(timeToMinutes m1.end_time ≤ timeToMinutes m2.start_time ∨
          timeToMinutes m2.end_time ≤ timeToMinutes m1.start_time)) := by
  unfold meetingsOverlap
  by_cases h : m1.days.toList.any (fun c => m2.days.toList.contains c)
  · have hd : ∃ c, c ∈ m1.days.toList ∧ c ∈ m2.days.toList := by
      rcases List.any_eq_true.mp h with ⟨c, hc, hmem⟩
      exact ⟨c, hc, by simpa using hmem⟩
    simp only [h, if_pos]
    constructor
    · intro hb
      refine ⟨hd, ?_⟩
      intro hor
      rcases hor with h1 | h1 <;> simp [h1] at hb
    · intro ⟨_, hno⟩
      push_neg at hno
      simp [Nat.not_le.mpr hno.1, Nat.not_le.mpr hno.2]
  · simp only [h, if_false, Bool.false_eq_true, false_iff]
    intro ⟨⟨c, hc1, hc2⟩, _⟩
    exact h (List.any_eq_true.mpr ⟨c, hc1, by simpa using hc2⟩)

/-- Claim C1: for every pair of Meetings, the conflict test returns true
iff the two meetings share at least one weekday letter and their
start/end times, converted to minutes since midnight, overlap as
half-open intervals (`not (end1 <= start2 or end2 <= start1)`); hence
meetings on disjoint days never conflict and adjacent meetings never
conflict. -/
theorem C1_meetings_overlap_characterisation (m1 m2 : Meeting) :
    meetingsOverlap m1 m2 = true ↔
      ((∃ c, c ∈ m1.days.toList ∧ c ∈ m2.days.toList) ∧
        ¬(timeToMinutes m1.end_time ≤ timeToMinutes m2.start_time ∨
          timeToMinutes m2.end_time ≤ timeToMinutes m1.start_time)) :=
  meetingsOverlap_iff m1 m2

/-- Rendering of a possibly-`None` value inside a Python f-string. -/
def pyStr (s : Option String) : String :=
  match s with
  | some v => v
  | none => "None"

/-- `Course.course_code` (course.py lines 52–55):
`f"{self.subject} {self.catalog_nbr}"`. -/
def courseCode (c : Course) : String :=
  pyStr c.subject ++ " " ++ pyStr c.catalog_nbr

/-- Python truthiness-based `a or b` on two optional strings (used for
`course.title or course.description`): the first operand if it is truthy
(non-`None` and nonempty), otherwise the second operand. -/
def pyOrStr (a b : Option String) : Option String :=
  match a with
  | some s => if s = "" then b else some s
  | none => b

/-- Nonempty run of ASCII digits evaluated as a number. -/
def digitsToNat (cs : List Char) : Option Nat :=
  if cs ≠ [] ∧ cs.all Char.isDigit then
    some (cs.foldl (fun acc c => acc * 10 + digitVal c) 0)
  else none

/-- Python `int(s)`: strip whitespace, optional sign, nonempty digit run. -/
def pythonInt (s : String) : Option Int :=
  let cs := ((s.toList.dropWhile isPyWhitespace).reverse.dropWhile isPyWhitespace).reverse
  match cs with
  | '+' :: rest => (digitsToNat rest).map Int.ofNat
  | '-' :: rest => (digitsToNat rest).map fun n => -(n : Int)
  | _ => (digitsToNat cs).map Int.ofNat

/-- Python `s.isdigit()` for ASCII data: nonempty and all digits. -/
def pyIsDigit (s : String) : Bool :=
  !s.toList.isEmpty && s.toList.all Char.isDigit

/-- The characters of `s` before the first occurrence of `sep`
(`s.split(sep)[0]`). -/
def beforeFirst (s : String) (sep : Char) : String :=
  String.mk (s.toList.takeWhile (fun c => c ≠ sep))

/-- The per-course summand of `Schedule._update_total_credits`
(schedule.py lines 115–122):
`int(units.split('-')[0]) if units and '-' in units else
 int(units) if units and units.isdigit() else 0`.
An `Except.error` is Python's `ValueError` escaping from `int(...)`
(reachable only through the hyphen branch, where the text before the
first hyphen is fed to `int` unchecked). -/
def creditOf : Option String → Except Unit Int
  | none => Except.ok 0
  | some u =>
    if u ≠ "" ∧ u.toList.contains '-' then
      match pythonInt (beforeFirst u '-') with
      | some n => Except.ok n
      | none => Except.error ()
    else if u ≠ "" ∧ pyIsDigit u then
      match pythonInt u with
      | some n => Except.ok n
      | none => Except.error ()
    else Except.ok 0

instance {ε α : Type} [DecidableEq ε] [DecidableEq α] :
    DecidableEq (Except ε α) := fun a b =>
  match a, b with
  | Except.error e1, Except.error e2 =>
    if h : e1 = e2 then isTrue (by rw [h])
    else isFalse (fun hx => h (Except.error.inj hx))
  | Except.error _, Except.ok _ => isFalse (fun hx => Except.noConfusion hx)
  | Except.ok _, Except.error _ => isFalse (fun hx => Except.noConfusion hx)
  | Except.ok a1, Except.ok a2 =>
    if h : a1 = a2 then isTrue (by rw [h])
    else isFalse (fun hx => h (Except.ok.inj hx))

/-- Evaluate `f` over a list left to right, stopping at the first raised
exception (the behaviour of a Python loop or generator that may raise). -/
def mapExcept (f : α → Except ε β) : List α → Except ε (List β)
  | [] => Except.ok []
  | a :: as =>
    match f a with
    | Except.error e => Except.error e
    | Except.ok b =>
      match mapExcept f as with
      | Except.error e => Except.error e
      | Except.ok bs => Except.ok (b :: bs)

/-- `Schedule._update_total_credits` (schedule.py lines 115–122): the sum
of the per-course parsed credits; an error is a `ValueError` raised
while summing (in which case Python leaves `total_credits` unchanged and
propagates). -/
def updateTotalCredits (courses : List Course) : Except Unit Int :=
  (mapExcept (fun c => creditOf c.units) courses).map (List.foldl (· + ·) 0)

/-- The conflict messages collected by `_validate_schedule`'s nested loop
(`for i, course1 in enumerate(courses): for course2 in courses[i+1:]`):
one message per ordered pair `i < j` that conflicts, in loop order. -/
def conflictMessages : List Course → List String
  | [] => []
  | course1 :: rest =>
    (rest.filterMap fun course2 =>
      if coursesConflict course1 course2 then
        some ("Time conflict between " ++ courseCode course1 ++ " and " ++
          courseCode course2)
      else none) ++ conflictMessages rest

/-- `Schedule._validate_schedule` (schedule.py lines 124–145): clear the
error list, re-scan all ordered pairs `i < j` for conflicts, then apply
the two credit-threshold checks; only conflicts and the over-18 check
clear `is_valid`. -/
def validateSchedule (s : Schedule) : Schedule :=
  let pairs := conflictMessages s.courses
  let conflictInvalid := pairs ≠ []
  let errors1 := pairs
  let errors2 := if s.total_credits > 18 then
      errors1 ++ ["Schedule exceeds maximum credit limit (18)"] else errors1
  let errors3 := if s.total_credits < 12 then
      errors2 ++ ["Schedule below minimum full-time credits (12)"] else errors2
  { s with
    validation_errors := errors3,
    is_valid := !(conflictInvalid || decide (s.total_credits > 18)) }

/-- `Schedule.add_course` (schedule.py lines 44–55).  Returns the schedule
as mutated together with the call's outcome: `Except.ok b` is the Python
return value `b`; `Except.error ()` is a `ValueError` escaping from
`_update_total_credits` after the course was already appended. -/
def addCourse (s : Schedule) (course : Course) : Schedule × Except Unit Bool :=
  if hasTimeConflict s course then
    ({ s with
        validation_errors :=
          s.validation_errors ++ ["Time conflict with " ++ courseCode course],
        is_valid := false },
      Except.ok false)
  else
    let courses' := s.courses ++ [course]
    match updateTotalCredits courses' with
    | Except.ok t => ({ s with courses := courses', total_credits := t }, Except.ok true)
    | Except.error e => ({ s with courses := courses' }, Except.error e)

/-- `Schedule.remove_course` (schedule.py lines 57–67): drop every course
whose `class_nbr` equals the argument; if anything was dropped,
recompute credits and revalidate (a `ValueError` from the credit
recomputation leaves the filtered list in place and propagates). -/
def removeCourse (s : Schedule) (class_nbr : Int) : Schedule × Except Unit Bool :=
  let remaining := s.courses.filter fun c => c.class_nbr ≠ some class_nbr
  if remaining.length < s.courses.length then
    match updateTotalCredits remaining with
    | Except.ok t =>
      (validateSchedule { s with courses := remaining, total_credits := t },
        Except.ok true)
    | Except.error e => ({ s with courses := remaining }, Except.error e)
  else
    (s, Except.ok false)

/-- `TimeSlot` (schedule.py lines 7–17); `day` is a single weekday letter
(one character of a meeting's `days` string). -/
structure TimeSlot where
  day : Char
  start_time : String
  end_time : String
  course_code : String
  course_title : Option String
  location : String
  instructor : String
  class_nbr : Option Int
deriving DecidableEq, Repr

/-- The list built by the nested loops of `Schedule.get_time_slots`
(schedule.py lines 149–164) before sorting: one `TimeSlot` per
(course, meeting, individual day letter) triple, in iteration order. -/
def slotExpansion (s : Schedule) : List TimeSlot :=
  s.courses.flatMap fun course =>
    course.meetings.flatMap fun meeting =>
      meeting.days.toList.map fun day =>
        { day := day
          start_time := meeting.start_time
          end_time := meeting.end_time
          course_code := courseCode course
          course_title := pyOrStr course.title course.description
          location := meeting.location
          instructor := course.instructor
          class_nbr := course.class_nbr }

/-- The sort key order of `get_time_slots`
(`key=lambda x: (x.day, minutes(x.start_time))`): lexicographic on the
day letter's code point, then the start time in minutes. -/
def slotLE (a b : TimeSlot) : Prop :=
  a.day.toNat < b.day.toNat ∨
    (a.day.toNat = b.day.toNat ∧
      timeToMinutes a.start_time ≤ timeToMinutes b.start_time)

instance : DecidableRel slotLE := fun a b => by
  unfold slotLE; infer_instance

instance : IsTotal TimeSlot slotLE where
  total a b := by
    rcases Nat.lt_trichotomy a.day.toNat b.day.toNat with h | h | h
    · exact Or.inl (Or.inl h)
    · rcases Nat.le_total (timeToMinutes a.start_time) (timeToMinutes b.start_time) with
        h2 | h2
      · exact Or.inl (Or.inr ⟨h, h2⟩)
      · exact Or.inr (Or.inr ⟨h.symm, h2⟩)
    · exact Or.inr (Or.inl h)

instance : IsTrans TimeSlot slotLE where
  trans a b c hab hbc := by
    rcases hab with h1 | ⟨h1, h1'⟩ <;> rcases hbc with h2 | ⟨h2, h2'⟩
    · exact Or.inl (Nat.lt_trans h1 h2)
    · exact Or.inl (h2 ▸ h1)
    · exact Or.inl (h1 ▸ h2)
    · exact Or.inr ⟨h1.trans h2, h1'.trans h2'⟩

/-- `Schedule.get_time_slots` (schedule.py lines 147–166): expand every
meeting into one slot per day letter, then sort by
`(day, minutes(start_time))`. -/
def getTimeSlots (s : Schedule) : List TimeSlot :=
  List.insertionSort slotLE (slotExpansion s)

/-- `CourseService._term_to_semester` (course_service.py lines 187–202):
`year = "20" + term[1:3]`, dispatch on `term[3]`; `none` models the
`IndexError` raised by `term[3]` on a term code shorter than 4. -/
def termToSemester (term : String) : Option String :=
  let year := "20" ++ String.mk ((term.toList.drop 1).take 2)
  match term.toList.get? 3 with
  | none => none
  | some term_digit =>
    some (if term_digit = '2' then "Spring " ++ year
      else if term_digit = '8' then "Fall " ++ year
      else if term_digit = '6' then "Summer " ++ year
      else if term_digit = '1' then "J-Term " ++ year
      else "Term " ++ term)

/-- The two result shapes of `CourseService.sync_courses_from_sis`
(course_service.py lines 115–130): the success dictionary carries
`courses_retrieved`, `courses_saved`, `term` and `subject`; the error
dictionary carries the exception message and zero counts. -/
inductive SyncSummary where
  | success (courses_retrieved courses_saved : Nat)
      (term : String) (subject : Option String)
  | error (message : String)
deriving DecidableEq, Repr

/-- The `status` field of the returned dictionary. -/
def SyncSummary.status : SyncSummary → String
  | success _ _ _ _ => "success"
  | error _ => "error"

/-- The `courses_retrieved` field of the returned dictionary. -/
def SyncSummary.coursesRetrieved : SyncSummary → Nat
  | success r _ _ _ => r
  | error _ => 0

/-- The `courses_saved` field of the returned dictionary. -/
def SyncSummary.coursesSaved : SyncSummary → Nat
  | success _ v _ _ => v
  | error _ => 0

/-- The `message` field of the returned dictionary (absent on success). -/
def SyncSummary.message : SyncSummary → Option String
  | success _ _ _ _ => none
  | error m => some m

/-- `CourseService.sync_courses_from_sis` (course_service.py lines 49–130).
The three effectful steps inside the `try` block are abstracted as
`Except`-valued inputs: `fetched` is the SIS fetch (either
`search_courses` or `get_all_courses_for_term`), `parse` is the
per-record parse-and-construct-Course step, and `save` is
`course_repo.create_many`; an `Except.error` is any exception raised by
that step.  Every exception lands in the `except` clause, which returns
the error summary instead of propagating. -/
def syncCoursesFromSis (fetched : Except String (List α))
    (parse : α → Except String β) (save : List β → Except String (List γ))
    (term : String) (subject : Option String) : SyncSummary :=
  match fetched with
  | Except.error e => SyncSummary.error e
  | Except.ok raw_courses =>
    match mapExcept parse raw_courses with
    | Except.error e => SyncSummary.error e
    | Except.ok courses_to_save =>
      match save courses_to_save with
      | Except.error e => SyncSummary.error e
      | Except.ok saved_courses =>
        SyncSummary.success raw_courses.length saved_courses.length term subject

/-- `Course.occupancy_rate` (course.py lines 62–67): `0.0` when
`class_capacity == 0`, else `enrollment_total / class_capacity * 100`
(exact rational arithmetic models the float expression; every value
appearing in the statements below is reached exactly). -/
def occupancyRate (c : Course) : ℚ :=
  if c.class_capacity = 0 then 0
  else (c.enrollment_total : ℚ) / (c.class_capacity : ℚ) * 100

/-- The recomputed `occupancy_rate` of `CourseResponse.from_db`
(course_schema.py lines 95–98): the formula when `class_capacity > 0`,
else `0`. -/
def fromDbOccupancyRate (enrollment_total class_capacity : Int) : ℚ :=
  if class_capacity > 0 then
    (enrollment_total : ℚ) / (class_capacity : ℚ) * 100
  else 0

-- Symmetry of the overlap test, shared by the claims below.

theorem meetingsOverlap_symm (m1 m2 : Meeting) :
    meetingsOverlap m1 m2 = meetingsOverlap m2 m1 := by
  rw [Bool.eq_iff_iff, meetingsOverlap_iff, meetingsOverlap_iff]
  constructor
  · intro ⟨⟨c, h1, h2⟩, ht⟩
    exact ⟨⟨c, h2, h1⟩, fun h => ht h.symm⟩
  · intro ⟨⟨c, h1, h2⟩, ht⟩
    exact ⟨⟨c, h2, h1⟩, fun h => ht h.symm⟩

/-- Claim C10: the pairwise course-conflict test is symmetric — the
conflict check on `(a, b)` returns the same result as on `(b, a)`. -/
theorem C10_courses_conflict_symmetric (a b : Course) :
    coursesConflict a b = coursesConflict b a := by
  unfold coursesConflict
  rw [Bool.eq_iff_iff]
  simp only [List.any_eq_true]
  constructor
  · intro ⟨m1, h1, m2, h2, h⟩
    exact ⟨m2, h2, m1, h1, (meetingsOverlap_symm m2 m1).trans h⟩
  · intro ⟨m2, h2, m1, h1, h⟩
    exact ⟨m1, h1, m2, h2, (meetingsOverlap_symm m1 m2).trans h⟩

/-- Claim C2: when `add_course` rejects a course for a time conflict, the
course list (hence its length and `total_credits`) is unchanged, exactly
one message `"Time conflict with {course_code}"` is appended,
`is_valid` becomes `False`, and the call returns failure. -/
theorem C2_add_course_rejection (s : Schedule) (course : Course)
    (h : hasTimeConflict s course = true) :
    addCourse s course =
      ({ courses := s.courses
         total_credits := s.total_credits
         is_valid := false
         validation_errors :=
           s.validation_errors ++ ["Time conflict with " ++ courseCode course] },
        Except.ok false) := by
  unfold addCourse
  rw [if_pos h]

theorem C2_add_course_rejection_witness :
    hasTimeConflict
        { courses := [⟨some "CS", some "1110", none, none, some 1001, some "3",
            0, 0, [⟨"MWF", "09:00", "09:50", "Rm 1"⟩], "TBA"⟩]
          total_credits := 3
          is_valid := true
          validation_errors := [] }
        ⟨some "APMA", some "2120", none, none, some 2002, some "4",
          0, 0, [⟨"MW", "09:00", "10:15", "Rm 2"⟩], "TBA"⟩ = true ∧
      addCourse
        { courses := [⟨some "CS", some "1110", none, none, some 1001, some "3",
            0, 0, [⟨"MWF", "09:00", "09:50", "Rm 1"⟩], "TBA"⟩]
          total_credits := 3
          is_valid := true
          validation_errors := [] }
        ⟨some "APMA", some "2120", none, none, some 2002, some "4",
          0, 0, [⟨"MW", "09:00", "10:15", "Rm 2"⟩], "TBA"⟩ =
        ({ courses := [⟨some "CS", some "1110", none, none, some 1001, some "3",
             0, 0, [⟨"MWF", "09:00", "09:50", "Rm 1"⟩], "TBA"⟩]
           total_credits := 3
           is_valid := false
           validation_errors := ["Time conflict with APMA 2120"] },
          Except.ok false) :=
  ⟨by decide, C2_add_course_rejection _ _ (by decide)⟩

/-- Claim C5: for every 4-character term code `c1c2c3c4`, the
term-to-semester conversion yields `"Spring 20{c2c3}"` when the 4th
character is `'2'`, `"Fall …"` for `'8'`, `"Summer …"` for `'6'`,
`"J-Term …"` for `'1'`, and `"Term {term}"` otherwise; in particular
"1258" maps to "Fall 2025" and "1259" to "Term 1259". -/
theorem C5_term_to_semester (c1 c2 c3 c4 : Char) :
    termToSemester (String.mk [c1, c2, c3, c4]) =
      some (if c4 = '2' then "Spring 20" ++ String.mk [c2, c3]
        else if c4 = '8' then "Fall 20" ++ String.mk [c2, c3]
        else if c4 = '6' then "Summer 20" ++ String.mk [c2, c3]
        else if c4 = '1' then "J-Term 20" ++ String.mk [c2, c3]
        else "Term " ++ String.mk [c1, c2, c3, c4]) ∧
      termToSemester "1258" = some "Fall 2025" ∧
      termToSemester "1259" = some "Term 1259" :=
  ⟨rfl, by decide, by decide⟩

/-- Claim C6: `sync_courses_from_sis` never propagates an exception — it
is a total function into the summary shape.  If any step (SIS fetch,
parsing, bulk save) raises, the result is the error summary with the
exception message and zero counts; otherwise it is the success summary
with `courses_retrieved` the number of raw records fetched,
`courses_saved` the number persisted, plus the term and subject. -/
theorem C6_sync_summary_shape {α β γ : Type}
    (fetched : Except String (List α)) (parse : α → Except String β)
    (save : List β → Except String (List γ))
    (term : String) (subject : Option String) :
    (∃ raw_courses courses_to_save saved_courses,
      fetched = Except.ok raw_courses ∧
      mapExcept parse raw_courses = Except.ok courses_to_save ∧
      save courses_to_save = Except.ok saved_courses ∧
      syncCoursesFromSis fetched parse save term subject =
        SyncSummary.success raw_courses.length saved_courses.length term subject ∧
      (syncCoursesFromSis fetched parse save term subject).status = "success" ∧
      (syncCoursesFromSis fetched parse save term subject).message = none) ∨
    (∃ e,
      syncCoursesFromSis fetched parse save term subject = SyncSummary.error e ∧
      (syncCoursesFromSis fetched parse save term subject).status = "error" ∧
      (syncCoursesFromSis fetched parse save term subject).message = some e ∧
      (syncCoursesFromSis fetched parse save term subject).coursesRetrieved = 0 ∧
      (syncCoursesFromSis fetched parse save term subject).coursesSaved = 0) := by
  cases hf : fetched with
  | error e =>
    right
    exact ⟨e, by simp [syncCoursesFromSis], by simp [syncCoursesFromSis, SyncSummary.status],
      by simp [syncCoursesFromSis, SyncSummary.message],
      by simp [syncCoursesFromSis, SyncSummary.coursesRetrieved],
      by simp [syncCoursesFromSis, SyncSummary.coursesSaved]⟩
  | ok raw =>
    cases hp : mapExcept parse raw with
    | error e =>
      right
      exact ⟨e, by simp [syncCoursesFromSis, hp], by simp [syncCoursesFromSis, hp, SyncSummary.status],
        by simp [syncCoursesFromSis, hp, SyncSummary.message],
        by simp [syncCoursesFromSis, hp, SyncSummary.coursesRetrieved],
        by simp [syncCoursesFromSis, hp, SyncSummary.coursesSaved]⟩
    | ok parsed =>
      cases hs : save parsed with
      | error e =>
        right
        exact ⟨e, by simp [syncCoursesFromSis, hp, hs],
          by simp [syncCoursesFromSis, hp, hs, SyncSummary.status],
          by simp [syncCoursesFromSis, hp, hs, SyncSummary.message],
          by simp [syncCoursesFromSis, hp, hs, SyncSummary.coursesRetrieved],
          by simp [syncCoursesFromSis, hp, hs, SyncSummary.coursesSaved]⟩
      | ok saved =>
        left
        exact ⟨raw, parsed, saved, rfl, hp, hs, by simp [syncCoursesFromSis, hp, hs],
          by simp [syncCoursesFromSis, hp, hs, SyncSummary.status],
          by simp [syncCoursesFromSis, hp, hs, SyncSummary.message]⟩

/-- Claim C7: `get_time_slots` returns exactly one `TimeSlot` per
(course, meeting, individual weekday letter) triple — it is a
permutation of the nested-loop expansion — and the returned list is
sorted by the key `(day letter, start time in minutes)`. -/
theorem C7_get_time_slots_sorted_expansion (s : Schedule) :
    (getTimeSlots s).Perm (slotExpansion s) ∧
      List.Sorted slotLE (getTimeSlots s) :=
  ⟨List.perm_insertionSort slotLE (slotExpansion s),
    List.sorted_insertionSort slotLE (slotExpansion s)⟩

/-- Counterexample to claim C8: the claim's rule prescribes
`enrollment_total / class_capacity * 100` whenever `class_capacity ≠ 0`,
and the model property follows it (`occupancy_rate` of a course with
`enrollment_total = 18, class_capacity = -1` is `-1800`), but the
response-shape recomputation in `CourseResponse.from_db` tests
`class_capacity > 0` and returns `0` there instead — so the response
shape does not follow the same rule. -/
theorem C8_counterexample :
    occupancyRate ⟨none, none, none, none, none, none, 18, -1, [], "TBA"⟩ =
        (-1800 : ℚ) ∧
      fromDbOccupancyRate 18 (-1) = (0 : ℚ) := by
  constructor
  · norm_num [occupancyRate]
  · norm_num [fromDbOccupancyRate]

/-- Claim C8 as amended: `occupancy_rate` is exactly `0` when
`class_capacity == 0` and `enrollment_total / class_capacity * 100`
otherwise (so 18 of 20 gives 90); the recomputed rate of the API
response shape is the formula when `class_capacity > 0` and `0`
otherwise, which agrees with the model property except when
`class_capacity` is negative. -/
theorem C8_occupancy_rate_amended (c : Course) :
    occupancyRate c =
      (if c.class_capacity = 0 then 0
        else (c.enrollment_total : ℚ) / (c.class_capacity : ℚ) * 100) ∧
    fromDbOccupancyRate c.enrollment_total c.class_capacity =
      (if 0 < c.class_capacity then
          (c.enrollment_total : ℚ) / (c.class_capacity : ℚ) * 100
        else 0) ∧
    (occupancyRate c = fromDbOccupancyRate c.enrollment_total c.class_capacity ∨
      c.class_capacity < 0) ∧
    occupancyRate ⟨none, none, none, none, none, none, 18, 20, [], "TBA"⟩ =
      (90 : ℚ) := by
  refine ⟨rfl, rfl, ?_, by norm_num [occupancyRate]⟩
  rcases lt_trichotomy c.class_capacity 0 with h | h | h
  · exact Or.inr h
  · left
    simp [occupancyRate, fromDbOccupancyRate, h]
  · left
    have h0 : c.class_capacity ≠ 0 := ne_of_gt h
    simp [occupancyRate, fromDbOccupancyRate, h, h0]

/-- Counterexample to claim C9: a meeting on "M" from "00:10" to "00:05"
has parsed end minute (5) below its parsed start minute (10), yet it
does overlap the meeting "M" "00:00"–"00:20", because the overlap test
only requires `end1 > start2` and `end2 > start1`. -/
theorem C9_counterexample :
    timeToMinutes "00:05" ≤ timeToMinutes "00:10" ∧
      meetingsOverlap ⟨"M", "00:10", "00:05", "Rm 1"⟩
        ⟨"M", "00:00", "00:20", "Rm 2"⟩ = true := by
  decide

/-- Claim C9 as amended: a meeting whose parsed end minute is at most its
parsed start minute never overlaps itself; a meeting whose parsed end
minute is 0 — in particular one whose end time is unparseable —
overlaps no meeting at all in the first position, and by symmetry in
the second; consequently a course all of whose meetings have parsed end
minute 0 raises no time conflict, is never rejected by `add_course`
(which appends it to the course list), and so can be added to the same
schedule repeatedly. -/
theorem C9_degenerate_meetings_amended :
    (∀ m : Meeting, timeToMinutes m.end_time ≤ timeToMinutes m.start_time →
      meetingsOverlap m m = false) ∧
    (∀ m m2 : Meeting, timeToMinutes m.end_time = 0 →
      meetingsOverlap m m2 = false ∧ meetingsOverlap m2 m = false) ∧
    (∀ (s : Schedule) (c : Course),
      (∀ m ∈ c.meetings, timeToMinutes m.end_time = 0) →
      hasTimeConflict s c = false ∧
      (addCourse s c).1.courses = s.courses ++ [c] ∧
      (addCourse s c).2 ≠ Except.ok false) := by
  have hover : ∀ m m2 : Meeting, timeToMinutes m.end_time = 0 →
      meetingsOverlap m m2 = false ∧ meetingsOverlap m2 m = false := by
    intro m m2 h0
    constructor
    · unfold meetingsOverlap
      split
      · simp [h0]
      · rfl
    · unfold meetingsOverlap
      split
      · simp [h0]
      · rfl
  have hconf : ∀ (s : Schedule) (c : Course),
      (∀ m ∈ c.meetings, timeToMinutes m.end_time = 0) →
      hasTimeConflict s c = false := by
    intro s c h0
    rw [← Bool.not_eq_true]
    intro h
    rcases List.any_eq_true.mp h with ⟨e, _, he⟩
    rcases List.any_eq_true.mp he with ⟨m1, _, hm1⟩
    rcases List.any_eq_true.mp hm1 with ⟨m2, hm2mem, hm2⟩
    rw [(hover m2 m1 (h0 m2 hm2mem)).2] at hm2
    exact Bool.false_ne_true hm2
  refine ⟨?_, hover, ?_⟩
  · intro m h
    unfold meetingsOverlap
    split
    · simp [h]
    · rfl
  · intro s c h0
    have hc := hconf s c h0
    refine ⟨hc, ?_, ?_⟩
    · unfold addCourse
      rw [if_neg (by simp [hc])]
      dsimp only []
      split <;> rfl
    · unfold addCourse
      rw [if_neg (by simp [hc])]
      dsimp only []
      split <;> simp

theorem C9_degenerate_meetings_amended_witness :
    (timeToMinutes (Meeting.mk "M" "00:10" "00:05" "Rm 1").end_time ≤
        timeToMinutes (Meeting.mk "M" "00:10" "00:05" "Rm 1").start_time ∧
      meetingsOverlap ⟨"M", "00:10", "00:05", "Rm 1"⟩
        ⟨"M", "00:10", "00:05", "Rm 1"⟩ = false) ∧
    (timeToMinutes (Meeting.mk "M" "09:00" "TBA" "Rm 1").end_time = 0 ∧
      meetingsOverlap ⟨"M", "09:00", "TBA", "Rm 1"⟩
        ⟨"M", "09:00", "10:00", "Rm 2"⟩ = false) ∧
    hasTimeConflict
      { courses := [⟨some "CS", some "1110", none, none, some 1001, some "3",
          0, 0, [⟨"MTWRF", "00:00", "23:59", "Rm 1"⟩], "TBA"⟩]
        total_credits := 3
        is_valid := true
        validation_errors := [] }
      ⟨some "SPAN", some "2010", none, none, some 3003, some "3",
        0, 0, [⟨"MTWRF", "09:00", "TBA", "Rm 3"⟩], "TBA"⟩ = false :=
  ⟨⟨by decide, C9_degenerate_meetings_amended.1 ⟨"M", "00:10", "00:05", "Rm 1"⟩ (by decide)⟩,
    ⟨by decide,
      (C9_degenerate_meetings_amended.2.1 ⟨"M", "09:00", "TBA", "Rm 1"⟩
        ⟨"M", "09:00", "10:00", "Rm 2"⟩ (by decide)).1⟩,
    (C9_degenerate_meetings_amended.2.2
      { courses := [⟨some "CS", some "1110", none, none, some 1001, some "3",
          0, 0, [⟨"MTWRF", "00:00", "23:59", "Rm 1"⟩], "TBA"⟩]
        total_credits := 3
        is_valid := true
        validation_errors := [] }
      ⟨some "SPAN", some "2010", none, none, some 3003, some "3",
        0, 0, [⟨"MTWRF", "09:00", "TBA", "Rm 3"⟩], "TBA"⟩
      (by decide)).1⟩

-- Facts about `_validate_schedule`, shared by the credit-cap claims.

theorem validateSchedule_cap (s : Schedule) (h : 18 < s.total_credits) :
    (validateSchedule s).is_valid = false ∧
      "Schedule exceeds maximum credit limit (18)" ∈
        (validateSchedule s).validation_errors := by
  by_cases h12 : s.total_credits < 12 <;>
    simp [validateSchedule, h, h12]

/-- Counterexample to claim C3: seven successive successful `add_course`
calls for 3-credit courses leave the schedule at 21 total credits, yet
`is_valid` is still `True` and no error is recorded — the credit cap is
not enforced on `add_course`. -/
theorem C3_counterexample :
    (List.foldl (fun st c => (addCourse st c).1) emptySchedule
        [⟨none, none, none, none, some 1, some "3", 0, 0, [], "TBA"⟩,
         ⟨none, none, none, none, some 2, some "3", 0, 0, [], "TBA"⟩,
         ⟨none, none, none, none, some 3, some "3", 0, 0, [], "TBA"⟩,
         ⟨none, none, none, none, some 4, some "3", 0, 0, [], "TBA"⟩,
         ⟨none, none, none, none, some 5, some "3", 0, 0, [], "TBA"⟩,
         ⟨none, none, none, none, some 6, some "3", 0, 0, [], "TBA"⟩,
         ⟨none, none, none, none, some 7, some "3", 0, 0, [], "TBA"⟩]).total_credits
        = 21 ∧
      (List.foldl (fun st c => (addCourse st c).1) emptySchedule
        [⟨none, none, none, none, some 1, some "3", 0, 0, [], "TBA"⟩,
         ⟨none, none, none, none, some 2, some "3", 0, 0, [], "TBA"⟩,
         ⟨none, none, none, none, some 3, some "3", 0, 0, [], "TBA"⟩,
         ⟨none, none, none, none, some 4, some "3", 0, 0, [], "TBA"⟩,
         ⟨none, none, none, none, some 5, some "3", 0, 0, [], "TBA"⟩,
         ⟨none, none, none, none, some 6, some "3", 0, 0, [], "TBA"⟩,
         ⟨none, none, none, none, some 7, some "3", 0, 0, [], "TBA"⟩]).is_valid
        = true ∧
      (List.foldl (fun st c => (addCourse st c).1) emptySchedule
        [⟨none, none, none, none, some 1, some "3", 0, 0, [], "TBA"⟩,
         ⟨none, none, none, none, some 2, some "3", 0, 0, [], "TBA"⟩,
         ⟨none, none, none, none, some 3, some "3", 0, 0, [], "TBA"⟩,
         ⟨none, none, none, none, some 4, some "3", 0, 0, [], "TBA"⟩,
         ⟨none, none, none, none, some 5, some "3", 0, 0, [], "TBA"⟩,
         ⟨none, none, none, none, some 6, some "3", 0, 0, [], "TBA"⟩,
         ⟨none, none, none, none, some 7, some "3", 0, 0, [], "TBA"⟩]).validation_errors
        = [] := by
  decide

/-- Claim C3 as amended: the over-18 credit check is applied by the full
revalidation `_validate_schedule`, which runs after every
`remove_course` that removes something (and on explicit revalidation):
there, `total_credits > 18` forces `is_valid = False` and records the
exceeds-maximum-credit-limit error.  `add_course` performs no credit
check, so a successful add can exceed 18 credits with the schedule
still marked valid (see the counterexample). -/
theorem C3_credit_cap_amended :
    (∀ s : Schedule, 18 < s.total_credits →
      (validateSchedule s).is_valid = false ∧
        "Schedule exceeds maximum credit limit (18)" ∈
          (validateSchedule s).validation_errors) ∧
    (∀ (s : Schedule) (class_nbr : Int) (s' : Schedule),
      removeCourse s class_nbr = (s', Except.ok true) →
      18 < s'.total_credits →
      s'.is_valid = false ∧
        "Schedule exceeds maximum credit limit (18)" ∈ s'.validation_errors) := by
  refine ⟨validateSchedule_cap, ?_⟩
  intro s class_nbr s' h h18
  unfold removeCourse at h
  dsimp only [] at h
  split at h
  · split at h
    · rw [Prod.mk.injEq] at h
      rw [← h.1] at h18 ⊢
      exact validateSchedule_cap _ h18
    · rw [Prod.mk.injEq] at h
      exact absurd h.2 (by intro hx; exact Except.noConfusion hx)
  · rw [Prod.mk.injEq] at h
    have := h.2
    exact absurd (Except.ok.inj this) (by intro hx; exact Bool.false_ne_true hx)

theorem C3_credit_cap_amended_witness :
    ((validateSchedule ⟨[], 21, true, []⟩).is_valid = false ∧
      "Schedule exceeds maximum credit limit (18)" ∈
        (validateSchedule ⟨[], 21, true, []⟩).validation_errors) ∧
    ((⟨[⟨none, none, none, none, some 1, some "3", 0, 0, [], "TBA"⟩,
        ⟨none, none, none, none, some 2, some "3", 0, 0, [], "TBA"⟩,
        ⟨none, none, none, none, some 3, some "3", 0, 0, [], "TBA"⟩,
        ⟨none, none, none, none, some 4, some "3", 0, 0, [], "TBA"⟩,
        ⟨none, none, none, none, some 5, some "3", 0, 0, [], "TBA"⟩,
        ⟨none, none, none, none, some 6, some "3", 0, 0, [], "TBA"⟩,
        ⟨none, none, none, none, some 7, some "3", 0, 0, [], "TBA"⟩],
       21, false, ["Schedule exceeds maximum credit limit (18)"]⟩ :
        Schedule).is_valid = false ∧
      "Schedule exceeds maximum credit limit (18)" ∈
        (⟨[⟨none, none, none, none, some 1, some "3", 0, 0, [], "TBA"⟩,
           ⟨none, none, none, none, some 2, some "3", 0, 0, [], "TBA"⟩,
           ⟨none, none, none, none, some 3, some "3", 0, 0, [], "TBA"⟩,
           ⟨none, none, none, none, some 4, some "3", 0, 0, [], "TBA"⟩,
           ⟨none, none, none, none, some 5, some "3", 0, 0, [], "TBA"⟩,
           ⟨none, none, none, none, some 6, some "3", 0, 0, [], "TBA"⟩,
           ⟨none, none, none, none, some 7, some "3", 0, 0, [], "TBA"⟩],
          21, false, ["Schedule exceeds maximum credit limit (18)"]⟩ :
           Schedule).validation_errors) :=
  ⟨C3_credit_cap_amended.1 ⟨[], 21, true, []⟩ (by decide),
    C3_credit_cap_amended.2
      ⟨[⟨none, none, none, none, some 1, some "3", 0, 0, [], "TBA"⟩,
        ⟨none, none, none, none, some 2, some "3", 0, 0, [], "TBA"⟩,
        ⟨none, none, none, none, some 3, some "3", 0, 0, [], "TBA"⟩,
        ⟨none, none, none, none, some 4, some "3", 0, 0, [], "TBA"⟩,
        ⟨none, none, none, none, some 5, some "3", 0, 0, [], "TBA"⟩,
        ⟨none, none, none, none, some 6, some "3", 0, 0, [], "TBA"⟩,
        ⟨none, none, none, none, some 7, some "3", 0, 0, [], "TBA"⟩,
        ⟨none, none, none, none, some 8, some "3", 0, 0, [], "TBA"⟩],
       24, true, []⟩
      8
      ⟨[⟨none, none, none, none, some 1, some "3", 0, 0, [], "TBA"⟩,
        ⟨none, none, none, none, some 2, some "3", 0, 0, [], "TBA"⟩,
        ⟨none, none, none, none, some 3, some "3", 0, 0, [], "TBA"⟩,
        ⟨none, none, none, none, some 4, some "3", 0, 0, [], "TBA"⟩,
        ⟨none, none, none, none, some 5, some "3", 0, 0, [], "TBA"⟩,
        ⟨none, none, none, none, some 6, some "3", 0, 0, [], "TBA"⟩,
        ⟨none, none, none, none, some 7, some "3", 0, 0, [], "TBA"⟩],
       21, false, ["Schedule exceeds maximum credit limit (18)"]⟩
      (by rfl) (by decide)⟩

/-- Counterexample to claim C4: units `"x-4"` are non-numeric, so by the
claim they should contribute 0, but the code takes the hyphen branch
and feeds `"x"` to `int(...)`, which raises `ValueError` — the credit
recomputation aborts instead of producing a sum. -/
theorem C4_counterexample :
    pyIsDigit "x-4" = false ∧
      updateTotalCredits
        [⟨none, none, none, none, some 1, some "x-4", 0, 0, [], "TBA"⟩] =
        Except.error () := by
  decide

-- A course whose units text contains a hyphen is nonempty.

theorem contains_hyphen_ne_empty (u : String) (h : u.toList.contains '-' = true) :
    u ≠ "" := by
  intro he
  rw [he] at h
  simp at h

theorem creditOf_hyphen (u : String) (h : u.toList.contains '-' = true) :
    creditOf (some u) =
      (match pythonInt (beforeFirst u '-') with
        | some n => Except.ok n
        | none => Except.error ()) := by
  simp only [creditOf]
  rw [if_pos ⟨contains_hyphen_ne_empty u h, h⟩]

/-- Claim C4 as amended: `total_credits` is computed by summing per-course
credits where units `"3"` contribute 3, a hyphenated range `"3-4"`
contributes the integer parsed from the text before the first hyphen,
and absent units or hyphen-free non-numeric units contribute 0 — but
units containing a hyphen whose pre-hyphen text is not an integer make
the recomputation raise `ValueError` (rather than contributing 0); a
schedule of four 3-credit non-conflicting courses added by `add_course`
has `total_credits = 12`, `is_valid = True` and no error recorded. -/
theorem C4_credit_summation_amended :
    (creditOf none = Except.ok 0) ∧
    (∀ (u : String) (n : Int), u.toList.contains '-' = true →
      pythonInt (beforeFirst u '-') = some n →
      creditOf (some u) = Except.ok n) ∧
    (∀ (u : String) (n : Int), pyIsDigit u = true → pythonInt u = some n →
      creditOf (some u) = Except.ok n) ∧
    (∀ u : String, u.toList.contains '-' = false → pyIsDigit u = false →
      creditOf (some u) = Except.ok 0) ∧
    (∀ u : String, u.toList.contains '-' = true →
      pythonInt (beforeFirst u '-') = none →
      creditOf (some u) = Except.error ()) ∧
    (∀ (cs : List Course) (vals : List Int),
      mapExcept (fun c => creditOf c.units) cs = Except.ok vals →
      updateTotalCredits cs = Except.ok (vals.foldl (· + ·) 0)) ∧
    (∀ c1 c2 c3 c4 : Course,
      c1.units = some "3" → c2.units = some "3" →
      c3.units = some "3" → c4.units = some "3" →
      coursesConflict c1 c2 = false → coursesConflict c1 c3 = false →
      coursesConflict c1 c4 = false → coursesConflict c2 c3 = false →
      coursesConflict c2 c4 = false → coursesConflict c3 c4 = false →
      List.foldl (fun st c => (addCourse st c).1) emptySchedule [c1, c2, c3, c4] =
        { courses := [c1, c2, c3, c4]
          total_credits := 12
          is_valid := true
          validation_errors := [] }) := by
  have hdigit : ∀ (u : String) (n : Int), pyIsDigit u = true → pythonInt u = some n →
      creditOf (some u) = Except.ok n := by
    intro u n hd hp
    have hne : u ≠ "" := by
      intro he
      rw [he] at hd
      simp [pyIsDigit] at hd
    have hnc : ¬(u.toList.contains '-' = true) := by
      intro hcon
      have hm : '-' ∈ u.toList := by simpa using hcon
      have hd' := hd
      simp [pyIsDigit] at hd'
      have : ('-').isDigit = true := hd'.2 '-' (by simpa using hm)
      simp [Char.isDigit] at this
    simp only [creditOf]
    rw [if_neg (fun hand => hnc hand.2), if_pos ⟨hne, hd⟩, hp]
  refine ⟨rfl, ?_, hdigit, ?_, ?_, ?_, ?_⟩
  · intro u n hc hp
    rw [creditOf_hyphen u hc, hp]
  · intro u hc hd
    by_cases he : u = ""
    · subst he
      decide
    · simp only [creditOf]
      rw [if_neg (fun hand => Bool.false_ne_true (hc ▸ hand.2)),
        if_neg (fun hand => Bool.false_ne_true (hd ▸ hand.2))]
  · intro u hc hp
    rw [creditOf_hyphen u hc, hp]
  · intro cs vals h
    unfold updateTotalCredits
    rw [h]
    rfl
  · intro c1 c2 c3 c4 hu1 hu2 hu3 hu4 h12 h13 h14 h23 h24 h34
    have hcr : ∀ c : Course, c.units = some "3" → creditOf c.units = Except.ok 3 := by
      intro c hu
      rw [hu]
      decide
    simp only [List.foldl_cons, List.foldl_nil, addCourse, hasTimeConflict,
      updateTotalCredits, mapExcept, List.any_cons, List.any_nil, emptySchedule,
      hcr c1 hu1, hcr c2 hu2, hcr c3 hu3, hcr c4 hu4, h12, h13, h14, h23, h24, h34,
      Bool.or_false, Bool.false_eq_true, if_false, Except.map, List.nil_append,
      List.cons_append, List.foldl]
    norm_num

theorem C4_credit_summation_amended_witness :
    creditOf (some "3-4") = Except.ok 3 ∧
    creditOf (some "3") = Except.ok 3 ∧
    creditOf (some "TBD") = Except.ok 0 ∧
    creditOf (some "x-4") = Except.error () ∧
    updateTotalCredits
      [⟨none, none, none, none, some 1, some "3", 0, 0, [], "TBA"⟩] =
      Except.ok 3 ∧
    List.foldl (fun st c => (addCourse st c).1) emptySchedule
        [⟨none, none, none, none, some 1, some "3", 0, 0, [], "TBA"⟩,
         ⟨none, none, none, none, some 2, some "3", 0, 0, [], "TBA"⟩,
         ⟨none, none, none, none, some 3, some "3", 0, 0, [], "TBA"⟩,
         ⟨none, none, none, none, some 4, some "3", 0, 0, [], "TBA"⟩] =
      { courses :=
          [⟨none, none, none, none, some 1, some "3", 0, 0, [], "TBA"⟩,
           ⟨none, none, none, none, some 2, some "3", 0, 0, [], "TBA"⟩,
           ⟨none, none, none, none, some 3, some "3", 0, 0, [], "TBA"⟩,
           ⟨none, none, none, none, some 4, some "3", 0, 0, [], "TBA"⟩]
        total_credits := 12
        is_valid := true
        validation_errors := [] } :=
  ⟨C4_credit_summation_amended.2.1 "3-4" 3 (by decide) (by decide),
    C4_credit_summation_amended.2.2.1 "3" 3 (by decide) (by decide),
    C4_credit_summation_amended.2.2.2.1 "TBD" (by decide) (by decide),
    C4_credit_summation_amended.2.2.2.2.1 "x-4" (by decide) (by decide),
    C4_credit_summation_amended.2.2.2.2.2.1
      [⟨none, none, none, none, some 1, some "3", 0, 0, [], "TBA"⟩] [3] (by decide),
    C4_credit_summation_amended.2.2.2.2.2.2
      ⟨none, none, none, none, some 1, some "3", 0, 0, [], "TBA"⟩
      ⟨none, none, none, none, some 2, some "3", 0, 0, [], "TBA"⟩
      ⟨none, none, none, none, some 3, some "3", 0, 0, [], "TBA"⟩
      ⟨none, none, none, none, some 4, some "3", 0, 0, [], "TBA"⟩
      rfl rfl rfl rfl (by decide) (by decide) (by decide) (by decide)
      (by decide) (by decide)⟩
